import Mathlib

/-!
Verification development for the FrozenWasteland `SeriouslySlowLFO` module
(`src/src/SeriouslySlowLFO.cpp`).  Floating-point values are modelled as
rationals; the arithmetic the claims exercise (min, clamp, additions and a
single conditional wrap) is exact at this granularity.
-/

/-- Modelled from the spec: the Edge Detector (`SchmittTrigger` from the host
library `dsp/digital.hpp`, not part of this repository's sources).  Two
thresholds and an armed/unarmed condition; starting Unarmed, a signal at or
above the high threshold fires a trigger and arms; once armed, a signal at or
below the low threshold rearms. -/
structure SchmittTrigger where
  low : ℚ
  high : ℚ
  armed : Bool
  deriving Repr, DecidableEq

/-- Modelled from the spec: one call of the Edge Detector; returns the trigger
result and the updated detector state. -/
def SchmittTrigger.process (st : SchmittTrigger) (signal : ℚ) : Bool × SchmittTrigger :=
  if st.armed = false ∧ st.high ≤ signal then (true, { st with armed := true })
  else if st.armed = true ∧ signal ≤ st.low then (false, { st with armed := false })
  else (false, st)

/-- Modelled from the spec: the host library clamp `clampf(x, lo, hi)`,
`fmaxf(fminf(x, hi), lo)`. -/
def clampf (x lo hi : ℚ) : ℚ := max (min x hi) lo

/-- The oscillator state of `LowFrequencyOscillator` (SeriouslySlowLFO.cpp).
Field defaults are the C++ member initializers; the constructor sets the reset
trigger thresholds to (0.0, 0.01). -/
structure LowFrequencyOscillator where
  phase : ℚ := 0
  pw : ℚ := 1/2
  freq : ℚ := 1
  offset : Bool := false
  invert : Bool := false
  resetTrigger : SchmittTrigger := { low := 0, high := 1/100, armed := false }
  deriving Repr, DecidableEq

/-- `LowFrequencyOscillator::setFrequency`. -/
def LowFrequencyOscillator.setFrequency (o : LowFrequencyOscillator)
    (frequency : ℚ) : LowFrequencyOscillator :=
  { o with freq := frequency }

/-- `LowFrequencyOscillator::setPulseWidth`: clamps to [0.01, 0.99]. -/
def LowFrequencyOscillator.setPulseWidth (o : LowFrequencyOscillator)
    (pw_ : ℚ) : LowFrequencyOscillator :=
  { o with pw := clampf pw_ (1/100) (1 - 1/100) }

/-- `LowFrequencyOscillator::setReset`: feeds the signal through the reset
trigger; on a trigger, phase becomes 0. -/
def LowFrequencyOscillator.setReset (o : LowFrequencyOscillator)
    (reset : ℚ) : LowFrequencyOscillator :=
  let r := o.resetTrigger.process reset
  if r.1 then { o with phase := 0, resetTrigger := r.2 }
  else { o with resetTrigger := r.2 }

/-- `LowFrequencyOscillator::hardReset`: phase becomes 0 immediately. -/
def LowFrequencyOscillator.hardReset (o : LowFrequencyOscillator) :
    LowFrequencyOscillator :=
  { o with phase := 0 }

/-- `LowFrequencyOscillator::step`: advance phase by `min(freq * dt, 0.5)` and
subtract 1 once if the result reached 1. -/
def LowFrequencyOscillator.step (o : LowFrequencyOscillator) (dt : ℚ) :
    LowFrequencyOscillator :=
  let deltaPhase := min (o.freq * dt) (1/2)
  let p := o.phase + deltaPhase
  if 1 ≤ p then { o with phase := p - 1 } else { o with phase := p }

/-- `LowFrequencyOscillator::sqr`: `(phase < pw) ^ invert ? 1.0 : -1.0`, plus 1
when offset. -/
def LowFrequencyOscillator.sqr (o : LowFrequencyOscillator) : ℚ :=
  let s : ℚ := if xor (decide (o.phase < o.pw)) o.invert then 1 else -1
  if o.offset then s + 1 else s

/-- `LowFrequencyOscillator::progress`: the raw phase. -/
def LowFrequencyOscillator.progress (o : LowFrequencyOscillator) : ℚ := o.phase

/-- The `switch(timeBase)` table in `SeriouslySlowLFO::step`:
seconds per cycle for each time base index (`numberOfSeconds` starts at 0 and
the switch has no default case). -/
def secondsForTimeBase (timeBase : ℤ) : ℚ :=
  if timeBase = 0 then 60
  else if timeBase = 1 then 3600
  else if timeBase = 2 then 86400
  else if timeBase = 3 then 604800
  else if timeBase = 4 then 259200
  else 0

/-- An input jack as seen by the module: active flag and current value. -/
structure PortInput where
  active : Bool
  value : ℚ
  deriving Repr, DecidableEq

/-- The inputs consumed by one call of `SeriouslySlowLFO::step`: the two
parameter values, the FM and reset jacks, and the sample interval
`1 / engineGetSampleRate()`. -/
structure TickInputs where
  timeBaseParam : ℚ
  durationParam : ℚ
  fm : PortInput
  reset : PortInput
  dt : ℚ
  deriving Repr, DecidableEq

/-- The module state of `SeriouslySlowLFO` that its `step` reads and writes.
`sumTrigger` keeps the host library's default thresholds (0, 1); `duration`
and `timeBase` are the C++ member initializers. -/
structure SeriouslySlowLFO where
  oscillator : LowFrequencyOscillator := {}
  sumTrigger : SchmittTrigger := { low := 0, high := 1, armed := false }
  duration : ℚ := 0
  timeBase : ℤ := 0
  deriving Repr, DecidableEq

/-- The initial module state (fresh construction). -/
def SeriouslySlowLFO.init : SeriouslySlowLFO := {}

/-- The mode-cycle update `timeBase = (timeBase + 1) % 5` (C truncated
remainder). -/
def cycleTimeBase (timeBase : ℤ) : ℤ := (timeBase + 1).tmod 5

/-- `SeriouslySlowLFO::step` up to (and excluding) the reset-input handling:
mode-cycle trigger, time-base table lookup, duration clamp, frequency, and the
oscillator step. -/
def SeriouslySlowLFO.tickPreReset (m : SeriouslySlowLFO) (i : TickInputs) :
    SeriouslySlowLFO :=
  let tr := m.sumTrigger.process i.timeBaseParam
  let m1 : SeriouslySlowLFO :=
    if tr.1 then
      { m with sumTrigger := tr.2, timeBase := cycleTimeBase m.timeBase,
               oscillator := m.oscillator.hardReset }
    else { m with sumTrigger := tr.2 }
  let numberOfSeconds := secondsForTimeBase m1.timeBase
  let d0 := if i.fm.active then i.durationParam + i.fm.value else i.durationParam
  let duration := clampf d0 1 100
  let osc := (m1.oscillator.setFrequency (1 / (duration * numberOfSeconds))).step i.dt
  { m1 with duration := duration, oscillator := osc }

/-- One full call of `SeriouslySlowLFO::step`: the pre-reset part, then
`setReset` on the oscillator only when the reset input is active. -/
def SeriouslySlowLFO.tick (m : SeriouslySlowLFO) (i : TickInputs) :
    SeriouslySlowLFO :=
  let m1 := m.tickPreReset i
  if i.reset.active then
    { m1 with oscillator := m1.oscillator.setReset i.reset.value }
  else m1

/-- `SeriouslySlowLFO::toJson` / `fromJson` persist a single field.  The JSON
object is modelled as that one optional integer (absent when the key is
missing on load). -/
structure ModuleJson where
  timeBase : Option ℤ
  deriving Repr, DecidableEq

/-- `SeriouslySlowLFO::toJson`: writes exactly the `timeBase` integer. -/
def SeriouslySlowLFO.toJson (m : SeriouslySlowLFO) : ModuleJson :=
  { timeBase := some m.timeBase }

/-- `SeriouslySlowLFO::fromJson`: restores `timeBase` when the key is present,
touching nothing else. -/
def SeriouslySlowLFO.fromJson (m : SeriouslySlowLFO) (j : ModuleJson) :
    SeriouslySlowLFO :=
  match j.timeBase with
  | some t => { m with timeBase := t }
  | none => m

/-- Claim C1: for every starting phase in [0,1), every freq > 0 and every
dt ≥ 0, after `step(dt)` the stored phase is again in [0,1). -/
theorem step_phase_in_unit (o : LowFrequencyOscillator) (dt : ℚ)
    (hp0 : 0 ≤ o.phase) (hp1 : o.phase < 1) (hf : 0 < o.freq) (hdt : 0 ≤ dt) :
    0 ≤ (o.step dt).phase ∧ (o.step dt).phase < 1 := by
  have hfd : 0 ≤ o.freq * dt := mul_nonneg (le_of_lt hf) hdt
  have hd0 : 0 ≤ min (o.freq * dt) (1/2 : ℚ) := le_min hfd (by norm_num)
  have hd1 : min (o.freq * dt) (1/2 : ℚ) ≤ 1/2 := min_le_right _ _
  unfold LowFrequencyOscillator.step
  by_cases h : (1 : ℚ) ≤ o.phase + min (o.freq * dt) (1/2)
  · simp only [h, if_true]
    constructor
    · linarith
    · linarith
  · simp only [h, if_false]
    constructor
    · linarith
    · linarith

/-- Claim C1 witness. -/
theorem step_phase_in_unit_witness :
    0 ≤ (({} : LowFrequencyOscillator).step 1).phase ∧
      (({} : LowFrequencyOscillator).step 1).phase < 1 :=
  step_phase_in_unit {} 1 (by norm_num) (by norm_num) (by norm_num) (by norm_num)

@[simp]
theorem step_freq (o : LowFrequencyOscillator) (dt : ℚ) :
    (o.step dt).freq = o.freq := by
  simp only [LowFrequencyOscillator.step]
  split <;> rfl

@[simp]
theorem step_pw (o : LowFrequencyOscillator) (dt : ℚ) :
    (o.step dt).pw = o.pw := by
  simp only [LowFrequencyOscillator.step]
  split <;> rfl

@[simp]
theorem step_offset (o : LowFrequencyOscillator) (dt : ℚ) :
    (o.step dt).offset = o.offset := by
  simp only [LowFrequencyOscillator.step]
  split <;> rfl

@[simp]
theorem step_invert (o : LowFrequencyOscillator) (dt : ℚ) :
    (o.step dt).invert = o.invert := by
  simp only [LowFrequencyOscillator.step]
  split <;> rfl

@[simp]
theorem setReset_freq (o : LowFrequencyOscillator) (r : ℚ) :
    (o.setReset r).freq = o.freq := by
  simp only [LowFrequencyOscillator.setReset]
  split <;> rfl

@[simp]
theorem setReset_pw (o : LowFrequencyOscillator) (r : ℚ) :
    (o.setReset r).pw = o.pw := by
  simp only [LowFrequencyOscillator.setReset]
  split <;> rfl

@[simp]
theorem setReset_offset (o : LowFrequencyOscillator) (r : ℚ) :
    (o.setReset r).offset = o.offset := by
  simp only [LowFrequencyOscillator.setReset]
  split <;> rfl

@[simp]
theorem setReset_invert (o : LowFrequencyOscillator) (r : ℚ) :
    (o.setReset r).invert = o.invert := by
  simp only [LowFrequencyOscillator.setReset]
  split <;> rfl

theorem setReset_phase_eq (o : LowFrequencyOscillator) (r : ℚ) :
    (o.setReset r).phase = (if (o.resetTrigger.process r).1 then 0 else o.phase) := by
  simp only [LowFrequencyOscillator.setReset]
  split <;> rfl

/-- Claim C2: when freq·dt > 0.5, a single `step(dt)` advances the phase by
exactly 0.5 (the cap), and the wrap happens at most once, leaving the phase in
[0,1). -/
theorem step_delta_capped (o : LowFrequencyOscillator) (dt : ℚ)
    (hp0 : 0 ≤ o.phase) (hp1 : o.phase < 1) (hbig : 1/2 < o.freq * dt) :
    (o.step dt).phase =
      (if 1 ≤ o.phase + 1/2 then o.phase + 1/2 - 1 else o.phase + 1/2) ∧
    0 ≤ (o.step dt).phase ∧ (o.step dt).phase < 1 := by
  have hmin : min (o.freq * dt) (1/2 : ℚ) = 1/2 := min_eq_right (le_of_lt hbig)
  have hstep : (o.step dt).phase =
      (if 1 ≤ o.phase + 1/2 then o.phase + 1/2 - 1 else o.phase + 1/2) := by
    simp only [LowFrequencyOscillator.step, hmin]
    split <;> rfl
  rw [hstep]
  refine ⟨rfl, ?_, ?_⟩ <;> split <;> linarith

/-- Claim C2 witness. -/
theorem step_delta_capped_witness :
    (({ phase := 7/10 } : LowFrequencyOscillator).step 1).phase =
      (if (1:ℚ) ≤ 7/10 + 1/2 then (7:ℚ)/10 + 1/2 - 1 else 7/10 + 1/2) ∧
    0 ≤ (({ phase := 7/10 } : LowFrequencyOscillator).step 1).phase ∧
    (({ phase := 7/10 } : LowFrequencyOscillator).step 1).phase < 1 :=
  step_delta_capped { phase := 7/10 } 1 (by norm_num) (by norm_num) (by norm_num)

/-- Claim C3: the time-base table.  Indices 0..3 map to 60, 3600, 86400 and
604800 seconds as claimed, but index 4 ("Months") maps to 259200 seconds
(3 days), not the claimed 2592000. -/
theorem secondsForTimeBase_table :
    secondsForTimeBase 0 = 60 ∧ secondsForTimeBase 1 = 3600 ∧
    secondsForTimeBase 2 = 86400 ∧ secondsForTimeBase 3 = 604800 ∧
    secondsForTimeBase 4 = 259200 ∧ secondsForTimeBase 4 ≠ 2592000 := by
  refine ⟨?_, ?_, ?_, ?_, ?_, ?_⟩ <;> norm_num [secondsForTimeBase]

theorem cycleTimeBase_mem (t : ℤ) (h0 : 0 ≤ t) :
    0 ≤ cycleTimeBase t ∧ cycleTimeBase t ≤ 4 := by
  unfold cycleTimeBase
  constructor
  · exact Int.tmod_nonneg 5 (by linarith)
  · have h := Int.tmod_lt_of_pos (t + 1) (b := 5) (by norm_num)
    linarith

theorem secondsForTimeBase_pos (t : ℤ) (h0 : 0 ≤ t) (h4 : t ≤ 4) :
    0 < secondsForTimeBase t := by
  interval_cases t <;> norm_num [secondsForTimeBase]

theorem tickPreReset_timeBase (m : SeriouslySlowLFO) (i : TickInputs) :
    (m.tickPreReset i).timeBase =
      (if (m.sumTrigger.process i.timeBaseParam).1 then cycleTimeBase m.timeBase
       else m.timeBase) := by
  simp only [SeriouslySlowLFO.tickPreReset]
  split <;> rfl

theorem tickPreReset_duration (m : SeriouslySlowLFO) (i : TickInputs) :
    (m.tickPreReset i).duration =
      clampf (if i.fm.active then i.durationParam + i.fm.value else i.durationParam)
        1 100 := by
  simp only [SeriouslySlowLFO.tickPreReset]

theorem tickPreReset_freq (m : SeriouslySlowLFO) (i : TickInputs) :
    (m.tickPreReset i).oscillator.freq =
      1 / ((m.tickPreReset i).duration *
        secondsForTimeBase (m.tickPreReset i).timeBase) := by
  simp only [SeriouslySlowLFO.tickPreReset, step_freq, LowFrequencyOscillator.setFrequency]

theorem tick_timeBase_eq (m : SeriouslySlowLFO) (i : TickInputs) :
    (m.tick i).timeBase = (m.tickPreReset i).timeBase := by
  simp only [SeriouslySlowLFO.tick]
  split <;> rfl

theorem tick_duration_eq (m : SeriouslySlowLFO) (i : TickInputs) :
    (m.tick i).duration = (m.tickPreReset i).duration := by
  simp only [SeriouslySlowLFO.tick]
  split <;> rfl

theorem tick_freq_eq (m : SeriouslySlowLFO) (i : TickInputs) :
    (m.tick i).oscillator.freq = (m.tickPreReset i).oscillator.freq := by
  simp only [SeriouslySlowLFO.tick]
  split
  · exact setReset_freq _ _
  · rfl

theorem clampf_ge_lo (x lo hi : ℚ) : lo ≤ clampf x lo hi := le_max_right _ _

/-- Claim C4: each tick, the effective duration is the base parameter plus the
modulation input (when active), clamped to [1, 100]; the frequency is
1 / (duration * secondsPerCycle) and is strictly positive for a valid time
base; for Minutes with duration 1 it is 1/60 Hz, for Days with duration 10 it
is 1/864000 Hz. -/
theorem tick_duration_and_frequency (m : SeriouslySlowLFO) (i : TickInputs)
    (h0 : 0 ≤ m.timeBase) (h4 : m.timeBase ≤ 4) :
    (m.tick i).duration =
      clampf (if i.fm.active then i.durationParam + i.fm.value else i.durationParam)
        1 100 ∧
    (m.tick i).oscillator.freq =
      1 / ((m.tick i).duration * secondsForTimeBase (m.tick i).timeBase) ∧
    0 < (m.tick i).oscillator.freq ∧
    ((m.tick i).timeBase = 0 → (m.tick i).duration = 1 →
      (m.tick i).oscillator.freq = 1/60) ∧
    ((m.tick i).timeBase = 2 → (m.tick i).duration = 10 →
      (m.tick i).oscillator.freq = 1/864000) := by
  have htb : 0 ≤ (m.tick i).timeBase ∧ (m.tick i).timeBase ≤ 4 := by
    rw [tick_timeBase_eq, tickPreReset_timeBase]
    split
    · exact cycleTimeBase_mem m.timeBase h0
    · exact ⟨h0, h4⟩
  have hdur : (m.tick i).duration =
      clampf (if i.fm.active then i.durationParam + i.fm.value else i.durationParam)
        1 100 := by
    rw [tick_duration_eq, tickPreReset_duration]
  have hfreq : (m.tick i).oscillator.freq =
      1 / ((m.tick i).duration * secondsForTimeBase (m.tick i).timeBase) := by
    rw [tick_freq_eq, tickPreReset_freq, tick_duration_eq, tick_timeBase_eq]
  have hd1 : (1:ℚ) ≤ (m.tick i).duration := by
    rw [hdur]; exact clampf_ge_lo _ _ _
  have hs : 0 < secondsForTimeBase (m.tick i).timeBase :=
    secondsForTimeBase_pos _ htb.1 htb.2
  refine ⟨hdur, hfreq, ?_, ?_, ?_⟩
  · rw [hfreq]
    exact div_pos one_pos (mul_pos (by linarith) hs)
  · intro ht hd
    rw [hfreq, ht, hd]
    norm_num [secondsForTimeBase]
  · intro ht hd
    rw [hfreq, ht, hd]
    norm_num [secondsForTimeBase]

/-- Claim C4 witness. -/
theorem tick_duration_and_frequency_witness :
    (SeriouslySlowLFO.init.tick
        { timeBaseParam := 0, durationParam := 1,
          fm := { active := false, value := 0 },
          reset := { active := false, value := 0 }, dt := 1 }).duration =
      clampf (if (false : Bool) then (1:ℚ) + 0 else 1) 1 100 ∧
    (SeriouslySlowLFO.init.tick
        { timeBaseParam := 0, durationParam := 1,
          fm := { active := false, value := 0 },
          reset := { active := false, value := 0 }, dt := 1 }).oscillator.freq =
      1 / ((SeriouslySlowLFO.init.tick
        { timeBaseParam := 0, durationParam := 1,
          fm := { active := false, value := 0 },
          reset := { active := false, value := 0 }, dt := 1 }).duration *
        secondsForTimeBase (SeriouslySlowLFO.init.tick
        { timeBaseParam := 0, durationParam := 1,
          fm := { active := false, value := 0 },
          reset := { active := false, value := 0 }, dt := 1 }).timeBase) ∧
    0 < (SeriouslySlowLFO.init.tick
        { timeBaseParam := 0, durationParam := 1,
          fm := { active := false, value := 0 },
          reset := { active := false, value := 0 }, dt := 1 }).oscillator.freq ∧
    ((SeriouslySlowLFO.init.tick
        { timeBaseParam := 0, durationParam := 1,
          fm := { active := false, value := 0 },
          reset := { active := false, value := 0 }, dt := 1 }).timeBase = 0 →
      (SeriouslySlowLFO.init.tick
        { timeBaseParam := 0, durationParam := 1,
          fm := { active := false, value := 0 },
          reset := { active := false, value := 0 }, dt := 1 }).duration = 1 →
      (SeriouslySlowLFO.init.tick
        { timeBaseParam := 0, durationParam := 1,
          fm := { active := false, value := 0 },
          reset := { active := false, value := 0 }, dt := 1 }).oscillator.freq = 1/60) ∧
    ((SeriouslySlowLFO.init.tick
        { timeBaseParam := 0, durationParam := 1,
          fm := { active := false, value := 0 },
          reset := { active := false, value := 0 }, dt := 1 }).timeBase = 2 →
      (SeriouslySlowLFO.init.tick
        { timeBaseParam := 0, durationParam := 1,
          fm := { active := false, value := 0 },
          reset := { active := false, value := 0 }, dt := 1 }).duration = 10 →
      (SeriouslySlowLFO.init.tick
        { timeBaseParam := 0, durationParam := 1,
          fm := { active := false, value := 0 },
          reset := { active := false, value := 0 }, dt := 1 }).oscillator.freq = 1/864000) :=
  tick_duration_and_frequency SeriouslySlowLFO.init
    { timeBaseParam := 0, durationParam := 1,
      fm := { active := false, value := 0 },
      reset := { active := false, value := 0 }, dt := 1 }
    (by norm_num [SeriouslySlowLFO.init]) (by norm_num [SeriouslySlowLFO.init])

/-- Claim C5: `hardReset` sets phase to exactly 0; `setReset` uses a dedicated
edge detector with thresholds (0.0, 0.01) and sets phase to 0 exactly when
that detector reports a trigger, leaving phase unchanged otherwise. -/
theorem reset_semantics (o : LowFrequencyOscillator) (r : ℚ) :
    o.hardReset.phase = 0 ∧
    ({} : LowFrequencyOscillator).resetTrigger.low = 0 ∧
    ({} : LowFrequencyOscillator).resetTrigger.high = 1/100 ∧
    (o.setReset r).phase = (if (o.resetTrigger.process r).1 then 0 else o.phase) :=
  ⟨rfl, rfl, rfl, setReset_phase_eq o r⟩

/-- Claim C6: a detected mode-cycle trigger advances the time base to
(current + 1) mod 5; in particular index 4 wraps to 0, and iterating the
cycle any number of times from a valid index stays in [0,4]. -/
theorem mode_cycle_wraps (m : SeriouslySlowLFO) (i : TickInputs) (t : ℤ) (n : ℕ)
    (htrig : (m.sumTrigger.process i.timeBaseParam).1 = true)
    (h0 : 0 ≤ t) (h4 : t ≤ 4) :
    (m.tick i).timeBase = cycleTimeBase m.timeBase ∧
    cycleTimeBase 4 = 0 ∧
    (0 ≤ cycleTimeBase^[n] t ∧ cycleTimeBase^[n] t ≤ 4) := by
  refine ⟨?_, by norm_num [cycleTimeBase], ?_⟩
  · rw [tick_timeBase_eq, tickPreReset_timeBase, htrig, if_pos rfl]
  · induction n generalizing t with
    | zero => exact ⟨h0, h4⟩
    | succ k ih =>
      rw [Function.iterate_succ_apply]
      exact ih _ (cycleTimeBase_mem t h0).1 (cycleTimeBase_mem t h0).2

/-- Claim C6 witness. -/
theorem mode_cycle_wraps_witness :
    (SeriouslySlowLFO.tick { timeBase := 4 }
        { timeBaseParam := 1, durationParam := 1,
          fm := { active := false, value := 0 },
          reset := { active := false, value := 0 }, dt := 1 }).timeBase =
      cycleTimeBase 4 ∧
    cycleTimeBase 4 = 0 ∧
    (0 ≤ cycleTimeBase^[7] 4 ∧ cycleTimeBase^[7] 4 ≤ 4) :=
  mode_cycle_wraps { timeBase := 4 }
    { timeBaseParam := 1, durationParam := 1,
      fm := { active := false, value := 0 },
      reset := { active := false, value := 0 }, dt := 1 } 4 7
    (by decide) (by norm_num) (by norm_num)

theorem step_phase_from_zero (o : LowFrequencyOscillator) (dt : ℚ)
    (h : o.phase = 0) :
    (o.step dt).phase = min (o.freq * dt) (1/2) := by
  have hle : min (o.freq * dt) (1/2:ℚ) ≤ 1/2 := min_le_right _ _
  simp only [LowFrequencyOscillator.step, h]
  split
  · rename_i hcond
    exact absurd hcond (by simp only [zero_add]; intro hc; linarith)
  · simp

theorem tick_of_reset_inactive (m : SeriouslySlowLFO) (i : TickInputs)
    (hres : i.reset.active = false) : m.tick i = m.tickPreReset i := by
  simp [SeriouslySlowLFO.tick, hres]

theorem tickPreReset_ignores_reset (m : SeriouslySlowLFO) (i : TickInputs)
    (r : PortInput) :
    SeriouslySlowLFO.tickPreReset m
      { timeBaseParam := i.timeBaseParam, durationParam := i.durationParam,
        fm := i.fm, reset := r, dt := i.dt } = m.tickPreReset i := rfl

/-- Claim C7 counterexample: in a tick where the mode-cycle trigger fires and
the reset input also fires, the resulting phase is 0, not
min(newFrequency * dt, 0.5); the claim as stated fails for such a tick. -/
theorem tick_modechange_phase_counterexample :
    (SeriouslySlowLFO.init.sumTrigger.process (1:ℚ)).1 = true ∧
    ¬ ((SeriouslySlowLFO.init.tick
        { timeBaseParam := 1, durationParam := 1,
          fm := { active := false, value := 0 },
          reset := { active := true, value := 1 }, dt := 1 }).oscillator.phase =
       min ((SeriouslySlowLFO.init.tick
        { timeBaseParam := 1, durationParam := 1,
          fm := { active := false, value := 0 },
          reset := { active := true, value := 1 }, dt := 1 }).oscillator.freq * 1)
         (1/2)) := by
  have htm : Int.tmod 1 5 = 1 := by decide
  norm_num [htm, SeriouslySlowLFO.tick, SeriouslySlowLFO.tickPreReset, SeriouslySlowLFO.init,
    SchmittTrigger.process, cycleTimeBase, secondsForTimeBase, clampf,
    LowFrequencyOscillator.setFrequency, LowFrequencyOscillator.setReset,
    LowFrequencyOscillator.hardReset, LowFrequencyOscillator.step, min_def]

/-- Claim C7 (amended): within a tick whose mode-cycle trigger fires and whose
reset input is inactive, the mode update and hardReset are applied before the
new frequency is computed and before the step, so the tick's resulting phase
is exactly min(newFrequency * dt, 0.5), never a value carried over from the
old mode's un-reset phase. -/
theorem tick_modechange_phase (m : SeriouslySlowLFO) (i : TickInputs)
    (htrig : (m.sumTrigger.process i.timeBaseParam).1 = true)
    (hres : i.reset.active = false) :
    (m.tick i).timeBase = cycleTimeBase m.timeBase ∧
    (m.tick i).oscillator.phase = min ((m.tick i).oscillator.freq * i.dt) (1/2) := by
  have htick : m.tick i = m.tickPreReset i := tick_of_reset_inactive m i hres
  constructor
  · rw [htick, tickPreReset_timeBase, htrig, if_pos rfl]
  · rw [htick]
    simp only [SeriouslySlowLFO.tickPreReset, htrig, if_true, eq_self_iff_true,
      step_freq]
    exact step_phase_from_zero _ _ rfl

/-- Claim C7 (amended) witness. -/
theorem tick_modechange_phase_witness :
    (SeriouslySlowLFO.init.tick
        { timeBaseParam := 1, durationParam := 1,
          fm := { active := false, value := 0 },
          reset := { active := false, value := 0 }, dt := 1 }).timeBase =
      cycleTimeBase SeriouslySlowLFO.init.timeBase ∧
    (SeriouslySlowLFO.init.tick
        { timeBaseParam := 1, durationParam := 1,
          fm := { active := false, value := 0 },
          reset := { active := false, value := 0 }, dt := 1 }).oscillator.phase =
      min ((SeriouslySlowLFO.init.tick
        { timeBaseParam := 1, durationParam := 1,
          fm := { active := false, value := 0 },
          reset := { active := false, value := 0 }, dt := 1 }).oscillator.freq * 1)
        (1/2) :=
  tick_modechange_phase SeriouslySlowLFO.init
    { timeBaseParam := 1, durationParam := 1,
      fm := { active := false, value := 0 },
      reset := { active := false, value := 0 }, dt := 1 }
    (by decide) rfl

/-- Claim C8: when the reset input is inactive during a tick, the reset-edge
path is not invoked, so the tick result is exactly the pre-reset computation
(the phase produced by step alone), unaffected by any value on the reset
jack. -/
theorem tick_reset_inactive_skips_reset (m : SeriouslySlowLFO) (i : TickInputs)
    (v : ℚ) (hres : i.reset.active = false) :
    m.tick i = m.tickPreReset i ∧
    SeriouslySlowLFO.tick m
      { timeBaseParam := i.timeBaseParam, durationParam := i.durationParam,
        fm := i.fm, reset := { active := false, value := v }, dt := i.dt } =
      m.tickPreReset i :=
  ⟨tick_of_reset_inactive m i hres,
   (tick_of_reset_inactive m
      { timeBaseParam := i.timeBaseParam, durationParam := i.durationParam,
        fm := i.fm, reset := { active := false, value := v }, dt := i.dt }
      rfl).trans (tickPreReset_ignores_reset m i _)⟩

/-- Claim C8 witness. -/
theorem tick_reset_inactive_skips_reset_witness :
    SeriouslySlowLFO.init.tick
      { timeBaseParam := 0, durationParam := 1,
        fm := { active := false, value := 0 },
        reset := { active := false, value := 0 }, dt := 1 } =
      SeriouslySlowLFO.init.tickPreReset
        { timeBaseParam := 0, durationParam := 1,
          fm := { active := false, value := 0 },
          reset := { active := false, value := 0 }, dt := 1 } ∧
    SeriouslySlowLFO.tick SeriouslySlowLFO.init
      { timeBaseParam := 0, durationParam := 1,
        fm := { active := false, value := 0 },
        reset := { active := false, value := 5 }, dt := 1 } =
      SeriouslySlowLFO.init.tickPreReset
        { timeBaseParam := 0, durationParam := 1,
          fm := { active := false, value := 0 },
          reset := { active := false, value := 0 }, dt := 1 } :=
  tick_reset_inactive_skips_reset SeriouslySlowLFO.init
    { timeBaseParam := 0, durationParam := 1,
      fm := { active := false, value := 0 },
      reset := { active := false, value := 0 }, dt := 1 } 5 rfl

/-- Claim C9: serialization persists exactly the one time-base integer; loading
the saved object restores the same time base and touches no other module
state. -/
theorem json_roundtrip (m mload : SeriouslySlowLFO) :
    m.toJson = { timeBase := some m.timeBase } ∧
    (mload.fromJson m.toJson).timeBase = m.timeBase ∧
    (mload.fromJson m.toJson).oscillator = mload.oscillator ∧
    (mload.fromJson m.toJson).sumTrigger = mload.sumTrigger ∧
    (mload.fromJson m.toJson).duration = mload.duration :=
  ⟨rfl, rfl, rfl, rfl, rfl⟩

theorem tick_oscillator_config (m : SeriouslySlowLFO) (i : TickInputs) :
    (m.tick i).oscillator.pw = m.oscillator.pw ∧
    (m.tick i).oscillator.offset = m.oscillator.offset ∧
    (m.tick i).oscillator.invert = m.oscillator.invert := by
  simp only [SeriouslySlowLFO.tick, SeriouslySlowLFO.tickPreReset]
  split <;> split <;>
    simp [LowFrequencyOscillator.setFrequency, LowFrequencyOscillator.hardReset]

theorem foldl_tick_config (is : List TickInputs) (m : SeriouslySlowLFO) :
    (is.foldl SeriouslySlowLFO.tick m).oscillator.pw = m.oscillator.pw ∧
    (is.foldl SeriouslySlowLFO.tick m).oscillator.offset = m.oscillator.offset ∧
    (is.foldl SeriouslySlowLFO.tick m).oscillator.invert = m.oscillator.invert := by
  induction is generalizing m with
  | nil => exact ⟨rfl, rfl, rfl⟩
  | cons a as ih =>
    simp only [List.foldl_cons]
    obtain ⟨h1, h2, h3⟩ := ih (m.tick a)
    obtain ⟨g1, g2, g3⟩ := tick_oscillator_config m a
    exact ⟨h1.trans g1, h2.trans g2, h3.trans g3⟩

/-- Claim C10: in every module state reachable through per-tick steps from the
initial state, the oscillator keeps pulse width 1/2, offset false and invert
false, and the square readout is the bipolar 50%-duty wave of the phase. -/
theorem reachable_square_config (is : List TickInputs) :
    (is.foldl SeriouslySlowLFO.tick SeriouslySlowLFO.init).oscillator.pw = 1/2 ∧
    (is.foldl SeriouslySlowLFO.tick SeriouslySlowLFO.init).oscillator.offset = false ∧
    (is.foldl SeriouslySlowLFO.tick SeriouslySlowLFO.init).oscillator.invert = false ∧
    (is.foldl SeriouslySlowLFO.tick SeriouslySlowLFO.init).oscillator.sqr =
      (if (is.foldl SeriouslySlowLFO.tick SeriouslySlowLFO.init).oscillator.phase < 1/2
       then (1:ℚ) else -1) := by
  obtain ⟨h1, h2, h3⟩ := foldl_tick_config is SeriouslySlowLFO.init
  have p1 : (is.foldl SeriouslySlowLFO.tick SeriouslySlowLFO.init).oscillator.pw =
      1/2 := h1
  have p2 : (is.foldl SeriouslySlowLFO.tick SeriouslySlowLFO.init).oscillator.offset =
      false := h2
  have p3 : (is.foldl SeriouslySlowLFO.tick SeriouslySlowLFO.init).oscillator.invert =
      false := h3
  refine ⟨p1, p2, p3, ?_⟩
  by_cases hp : (is.foldl SeriouslySlowLFO.tick SeriouslySlowLFO.init).oscillator.phase
      < 1/2 <;>
    simp [LowFrequencyOscillator.sqr, p1, p2, p3, hp]
